import Mathlib

/-!
Verification of the coordinate-transform and canvas-selection subsystem of
the pixel-url library.

Numbers (TypeScript `number`) are modelled as rationals `ℚ`, so all the
arithmetic of the source (including division by the viewport scale) is exact;
an exact round-trip equality is in particular within any floating-point
tolerance. Thrown exceptions are modelled with `Except`, optional fields with
`Option` (JavaScript `v || 0` on a numeric option agrees with `Option.getD 0`,
since `0 || 0` is `0`). The React state of `useCanvasSelection` is modelled as
an explicit state record, each callback of the hook as an explicit outcome
value returned next to the new state.
-/

namespace PixelUrl

/-- Screen-space point, from `coordinateTransform.ts` (`interface Point`). -/
@[ext]
structure Point where
  x : ℚ
  y : ℚ
deriving DecidableEq

/-- PDF-document-space coordinates (`interface PDFCoordinates`). -/
@[ext]
structure PDFCoordinates where
  x : ℚ
  y : ℚ
deriving DecidableEq

/-- Rectangle in document space (`interface BoundingBox`); width or height may
be negative before normalization. -/
@[ext]
structure BoundingBox where
  x : ℚ
  y : ℚ
  width : ℚ
  height : ℚ
  pageNumber : ℚ
  scale : ℚ
deriving DecidableEq

/-- `interface NormalizedSelection extends BoundingBox { normalized: true }`.
The `normalized` marker is kept as a `Bool` field. -/
@[ext]
structure NormalizedSelection where
  x : ℚ
  y : ℚ
  width : ℚ
  height : ℚ
  pageNumber : ℚ
  scale : ℚ
  normalized : Bool
deriving DecidableEq

/-- Forget the `normalized` marker (TypeScript structural subtyping lets a
`NormalizedSelection` be used where a `BoundingBox` is expected). -/
def NormalizedSelection.toBoundingBox (s : NormalizedSelection) : BoundingBox :=
  ⟨s.x, s.y, s.width, s.height, s.pageNumber, s.scale⟩

/-- `interface PDFViewport`; `offsetX`/`offsetY` are optional. -/
structure PDFViewport where
  width : ℚ
  height : ℚ
  scale : ℚ
  transform : List ℚ
  offsetX : Option ℚ := none
  offsetY : Option ℚ := none
deriving DecidableEq

/-- The single exception of the transform layer:
`throw new Error('Invalid scale: scale must be greater than 0')`. -/
inductive TransformError where
  | invalidScale
deriving DecidableEq

/-- `screenToPDF` from `coordinateTransform.ts`: guard `scale <= 0`, then
`(coord - offset) / scale` componentwise, offsets defaulting to 0. -/
def screenToPDF (screenCoords : Point) (viewport : PDFViewport) :
    Except TransformError PDFCoordinates :=
  if viewport.scale ≤ 0 then
    .error .invalidScale
  else
    let offsetX := viewport.offsetX.getD 0
    let offsetY := viewport.offsetY.getD 0
    .ok ⟨(screenCoords.x - offsetX) / viewport.scale,
         (screenCoords.y - offsetY) / viewport.scale⟩

/-- `pdfToScreen` from `coordinateTransform.ts`: `coord * scale + offset`. -/
def pdfToScreen (pdfCoords : PDFCoordinates) (viewport : PDFViewport) : Point :=
  let offsetX := viewport.offsetX.getD 0
  let offsetY := viewport.offsetY.getD 0
  ⟨pdfCoords.x * viewport.scale + offsetX,
   pdfCoords.y * viewport.scale + offsetY⟩

/-- `normalizeSelection` from `coordinateTransform.ts`: fold a negative width
(resp. height) into `x` (resp. `y`) and take the absolute value. -/
def normalizeSelection (selection : BoundingBox) : NormalizedSelection :=
  { x := if selection.width < 0 then selection.x + selection.width else selection.x,
    width := if selection.width < 0 then |selection.width| else selection.width,
    y := if selection.height < 0 then selection.y + selection.height else selection.y,
    height := if selection.height < 0 then |selection.height| else selection.height,
    pageNumber := selection.pageNumber, scale := selection.scale,
    normalized := true }

/-- `transformBounds` from `coordinateTransform.ts`. -/
def transformBounds (bounds : BoundingBox) (newScale : ℚ) : BoundingBox :=
  let scaleRatio := newScale / bounds.scale
  { x := bounds.x * scaleRatio, y := bounds.y * scaleRatio,
    width := bounds.width * scaleRatio, height := bounds.height * scaleRatio,
    pageNumber := bounds.pageNumber, scale := newScale }

/-- `createTransformMatrix` from `coordinateTransform.ts`:
`[scale, 0, 0, scale, offsetX, offsetY]`. -/
def createTransformMatrix (viewport : PDFViewport) : List ℚ :=
  let offsetX := viewport.offsetX.getD 0
  let offsetY := viewport.offsetY.getD 0
  [viewport.scale, 0, 0, viewport.scale, offsetX, offsetY]

/-- `applyTransform` from `coordinateTransform.ts`: destructures the first six
matrix entries `[a,b,c,d,e,f]`; on a shorter list the JavaScript original
computes with `undefined` (NaN results), modelled here as `none`. -/
def applyTransform (point : Point) (matrix : List ℚ) : Option Point :=
  match matrix with
  | a :: b :: c :: d :: e :: f :: _ =>
      some ⟨a * point.x + c * point.y + e, b * point.x + d * point.y + f⟩
  | _ => none

/-- `getSelectionBounds` from `coordinateTransform.ts`: convert both screen
points, build the delta box, normalize. Propagates the `InvalidScale` throw
of `screenToPDF`. -/
def getSelectionBounds (startPoint endPoint : Point) (viewport : PDFViewport)
    (pageNumber : ℚ) : Except TransformError NormalizedSelection := do
  let startPDF ← screenToPDF startPoint viewport
  let endPDF ← screenToPDF endPoint viewport
  let bounds : BoundingBox :=
    { x := startPDF.x, y := startPDF.y,
      width := endPDF.x - startPDF.x, height := endPDF.y - startPDF.y,
      pageNumber := pageNumber, scale := viewport.scale }
  return normalizeSelection bounds

/-- `isPointInViewport` from `coordinateTransform.ts`. -/
def isPointInViewport (point : Point) (viewport : PDFViewport) : Bool :=
  0 ≤ point.x && 0 ≤ point.y && point.x ≤ viewport.width && point.y ≤ viewport.height

/-- `clampToViewport` from `coordinateTransform.ts`. Note that the source
computes the clamped `width` from the ORIGINAL `selection.x`, not from the
already-clamped `x` (and symmetrically for `height`). -/
def clampToViewport (selection : BoundingBox) (viewport : PDFViewport) : BoundingBox :=
  let maxX := viewport.width
  let maxY := viewport.height
  { selection with
    x := max 0 (min selection.x (maxX - selection.width))
    y := max 0 (min selection.y (maxY - selection.height))
    width := min selection.width (maxX - selection.x)
    height := min selection.height (maxY - selection.y) }

/-! ## Selection state machine (`useCanvasSelection.ts`) -/

/-- Live selection descriptor passed to `onSelectionUpdate`
(`interface SelectionData`). -/
structure SelectionData where
  startX : ℚ
  startY : ℚ
  currentX : ℚ
  currentY : ℚ
  width : ℚ
  height : ℚ
  pdfCoords : Option (PDFCoordinates × PDFCoordinates)
deriving DecidableEq

/-- The React state of `useCanvasSelection`: the four `useState` cells. -/
structure SelectionState where
  isSelecting : Bool
  startPoint : Option Point
  endPoint : Option Point
  selectionBounds : Option NormalizedSelection
deriving DecidableEq

/-- Initial state of the hook: not selecting, everything `null`. -/
def initialSelectionState : SelectionState :=
  { isSelecting := false, startPoint := none, endPoint := none,
    selectionBounds := none }

/-- Configuration of the hook (`UseCanvasSelectionProps` without the
callbacks, which are modelled as explicit outcomes). -/
structure SelectionProps where
  viewport : PDFViewport
  pageNumber : ℚ
  minSelectionSize : ℚ := 5
deriving DecidableEq

/-- `startSelection`: no-op while already selecting; otherwise set both points
to the given one, enter selecting, clear stored bounds. The `Bool` part
records whether `onSelectionStart` was invoked. -/
def startSelection (point : Point) (s : SelectionState) : SelectionState × Bool :=
  if s.isSelecting then (s, false)
  else
    ({ isSelecting := true, startPoint := some point, endPoint := some point,
       selectionBounds := none }, true)

/-- Outcome of one call to `updateSelection`. -/
inductive UpdateOutcome where
  | noop
  | threw (e : TransformError)
  | updated (d : SelectionData)
deriving DecidableEq

/-- `updateSelection`: guarded by `isSelecting && startPoint`; sets
`endPoint` first, then converts both points with `screenToPDF` (which can
throw after the new `endPoint` is already stored) and reports the
`SelectionData` passed to `onSelectionUpdate`. -/
def updateSelection (props : SelectionProps) (point : Point)
    (s : SelectionState) : SelectionState × UpdateOutcome :=
  match s.isSelecting, s.startPoint with
  | true, some st =>
    let s' := { s with endPoint := some point }
    match screenToPDF st props.viewport, screenToPDF point props.viewport with
    | .ok pdfStart, .ok pdfCurrent =>
        (s', .updated
          { startX := st.x, startY := st.y, currentX := point.x,
            currentY := point.y, width := point.x - st.x,
            height := point.y - st.y,
            pdfCoords := some (pdfStart, pdfCurrent) })
    | .error e, _ => (s', .threw e)
    | .ok _, .error e => (s', .threw e)
  | _, _ => (s, .noop)

/-- Outcome of one call to `completeSelection`. -/
inductive CompleteOutcome where
  | noop
  | threw (e : TransformError)
  | completed (bounds : NormalizedSelection)
deriving DecidableEq

/-- `completeSelection`: guarded by `isSelecting && startPoint && endPoint`;
a sub-`minSelectionSize` drag returns without touching the state; otherwise
computes `getSelectionBounds`, leaves the selecting state, stores the bounds
and reports them (the payload of `onSelectionComplete`). `startPoint` and
`endPoint` are not modified by the source on this path. -/
def completeSelection (props : SelectionProps) (s : SelectionState) :
    SelectionState × CompleteOutcome :=
  match s.isSelecting, s.startPoint, s.endPoint with
  | true, some st, some en =>
    if |en.x - st.x| < props.minSelectionSize ∨
       |en.y - st.y| < props.minSelectionSize then
      (s, .noop)
    else
      match getSelectionBounds st en props.viewport props.pageNumber with
      | .error e => (s, .threw e)
      | .ok bounds =>
          ({ s with isSelecting := false, selectionBounds := some bounds },
           .completed bounds)
  | _, _, _ => (s, .noop)

/-- `cancelSelection`: resets everything; the `Bool` part records that
`onSelectionCancel` was invoked (it always is). -/
def cancelSelection (_s : SelectionState) : SelectionState × Bool :=
  ({ isSelecting := false, startPoint := none, endPoint := none,
     selectionBounds := none }, true)

/-- `clearSelection`: same reset, but without invoking any callback. -/
def clearSelection (_s : SelectionState) : SelectionState :=
  { isSelecting := false, startPoint := none, endPoint := none,
    selectionBounds := none }

/-! ## Pixel extraction (`imageExtraction.ts`) -/

/-- Pixel dimensions of a source `HTMLCanvasElement`. -/
structure HTMLCanvas where
  width : ℚ
  height : ℚ
deriving DecidableEq

/-- Arguments of the single `ctx.drawImage` region-copy call. -/
structure DrawCall where
  sx : ℚ
  sy : ℚ
  sw : ℚ
  sh : ℚ
  dx : ℚ
  dy : ℚ
  dw : ℚ
  dh : ℚ
deriving DecidableEq

/-- What `extractSelectionFromCanvas` produces when it does copy pixels: the
size given to the fresh extraction canvas and the one draw call performed on
it (the PNG encoding of that canvas is outside the model). -/
structure ExtractionResult where
  canvasWidth : ℚ
  canvasHeight : ℚ
  draw : DrawCall
deriving DecidableEq

/-- `extractSelectionFromCanvas` from `imageExtraction.ts`: scale the
selection into source-canvas pixel space, clamp against the source
dimensions, return `none` (the `null` of the source) when the clamped size is
not positive — on that path no `drawImage` happens, which the model reflects
by producing no `DrawCall` at all. -/
def extractSelectionFromCanvas (sourceCanvas : HTMLCanvas)
    (selection : NormalizedSelection) (scale : ℚ) : Option ExtractionResult :=
  let scaledX := selection.x * scale
  let scaledY := selection.y * scale
  let scaledWidth := selection.width * scale
  let scaledHeight := selection.height * scale
  let sourceWidth := sourceCanvas.width
  let sourceHeight := sourceCanvas.height
  let clampedX := max 0 (min scaledX sourceWidth)
  let clampedY := max 0 (min scaledY sourceHeight)
  let clampedWidth := min |scaledWidth| (sourceWidth - clampedX)
  let clampedHeight := min |scaledHeight| (sourceHeight - clampedY)
  if clampedWidth ≤ 0 ∨ clampedHeight ≤ 0 then
    none
  else
    some { canvasWidth := |scaledWidth|, canvasHeight := |scaledHeight|,
           draw := { sx := clampedX, sy := clampedY, sw := clampedWidth,
                     sh := clampedHeight, dx := 0, dy := 0,
                     dw := clampedWidth, dh := clampedHeight } }

/-! ## Theorems -/

/-- C3: for every point `p` and viewport `v` with `v.scale > 0` (any
offsets), `screenToPDF p v` succeeds with some `q` and `pdfToScreen q v`
recovers `p`. Over `ℚ` the round trip is exact, hence in particular within
the 1e-6 tolerance the spec allows. -/
theorem pdfToScreen_screenToPDF_roundtrip (p : Point) (v : PDFViewport)
    (h : 0 < v.scale) :
    ∃ q, screenToPDF p v = .ok q ∧ pdfToScreen q v = p := by
  have hs : v.scale ≠ 0 := ne_of_gt h
  refine ⟨⟨(p.x - v.offsetX.getD 0) / v.scale,
           (p.y - v.offsetY.getD 0) / v.scale⟩, ?_, ?_⟩
  · unfold screenToPDF
    rw [if_neg (not_le.mpr h)]
  · unfold pdfToScreen
    ext <;> dsimp <;> rw [div_mul_cancel₀ _ hs] <;> ring

/-- Witness for C3 at `p = (100, 200)`, scale 2, offsets `(3, 4)`. -/
theorem pdfToScreen_screenToPDF_roundtrip_witness :
    ∃ q, screenToPDF ⟨100, 200⟩
        ⟨800, 600, 2, [2, 0, 0, 2, 3, 4], some 3, some 4⟩ = .ok q ∧
      pdfToScreen q ⟨800, 600, 2, [2, 0, 0, 2, 3, 4], some 3, some 4⟩ =
        ⟨100, 200⟩ :=
  pdfToScreen_screenToPDF_roundtrip ⟨100, 200⟩
    ⟨800, 600, 2, [2, 0, 0, 2, 3, 4], some 3, some 4⟩ (by norm_num)

/-- C4: `screenToPDF` throws `InvalidScale` exactly when `scale ≤ 0`, and
for a positive scale returns `((x - offsetX) / scale, (y - offsetY) / scale)`
with the offsets defaulting to 0 when absent. -/
theorem screenToPDF_invalidScale_iff (p : Point) (v : PDFViewport) :
    (v.scale ≤ 0 → screenToPDF p v = .error .invalidScale) ∧
    (0 < v.scale → screenToPDF p v =
      .ok ⟨(p.x - v.offsetX.getD 0) / v.scale,
           (p.y - v.offsetY.getD 0) / v.scale⟩) := by
  constructor
  · intro h
    unfold screenToPDF
    rw [if_pos h]
  · intro h
    unfold screenToPDF
    rw [if_neg (not_le.mpr h)]

/-- Witness for C4: `screenToPDF {x:100, y:200}` against a scale-0 viewport
throws `InvalidScale`. -/
theorem screenToPDF_invalidScale_iff_witness :
    screenToPDF ⟨100, 200⟩ ⟨800, 600, 0, [0, 0, 0, 0, 0, 0], none, none⟩ =
      .error .invalidScale :=
  (screenToPDF_invalidScale_iff ⟨100, 200⟩
    ⟨800, 600, 0, [0, 0, 0, 0, 0, 0], none, none⟩).1 (by norm_num)

/-- C9: `normalizeSelection` always yields non-negative dimensions with the
`normalized` marker set, anchors `x, y` at the top-left corner, and is
idempotent: re-normalizing its output changes none of the fields. -/
theorem normalizeSelection_nonneg_idem (b : BoundingBox) :
    0 ≤ (normalizeSelection b).width ∧ 0 ≤ (normalizeSelection b).height ∧
    (normalizeSelection b).normalized = true ∧
    (normalizeSelection b).x = min b.x (b.x + b.width) ∧
    (normalizeSelection b).y = min b.y (b.y + b.height) ∧
    normalizeSelection (normalizeSelection b).toBoundingBox =
      normalizeSelection b := by
  unfold normalizeSelection NormalizedSelection.toBoundingBox
  dsimp only
  rcases lt_or_le b.width 0 with hw | hw <;> rcases lt_or_le b.height 0 with hh | hh
  · simp only [if_pos hw, if_pos hh, if_neg (not_lt.mpr (abs_nonneg b.width)),
      if_neg (not_lt.mpr (abs_nonneg b.height))]
    exact ⟨abs_nonneg _, abs_nonneg _, trivial,
      (min_eq_right (by linarith)).symm, (min_eq_right (by linarith)).symm, trivial⟩
  · simp only [if_pos hw, if_neg (not_lt.mpr hh),
      if_neg (not_lt.mpr (abs_nonneg b.width))]
    exact ⟨abs_nonneg _, hh, trivial,
      (min_eq_right (by linarith)).symm, (min_eq_left (by linarith)).symm, trivial⟩
  · simp only [if_neg (not_lt.mpr hw), if_pos hh,
      if_neg (not_lt.mpr (abs_nonneg b.height))]
    exact ⟨hw, abs_nonneg _, trivial,
      (min_eq_left (by linarith)).symm, (min_eq_right (by linarith)).symm, trivial⟩
  · simp only [if_neg (not_lt.mpr hw), if_neg (not_lt.mpr hh)]
    exact ⟨hw, hh, trivial,
      (min_eq_left (by linarith)).symm, (min_eq_left (by linarith)).symm, trivial⟩

/-- C10: the matrix path agrees exactly with the direct forward transform:
`applyTransform p (createTransformMatrix v)` succeeds and equals
`pdfToScreen p v` for every point and viewport (the same numeric pair read
as `PDFCoordinates`, as TypeScript structural typing does). -/
theorem applyTransform_matrix_eq_pdfToScreen (p : Point) (v : PDFViewport) :
    applyTransform p (createTransformMatrix v) =
      some (pdfToScreen ⟨p.x, p.y⟩ v) := by
  simp only [applyTransform, createTransformMatrix, pdfToScreen]
  congr 1
  ext <;> dsimp <;> ring

/-- C1 counterexample: a box with non-negative width and height whose
clamped image still exceeds the viewport on the right: for
`box = {x: -10, y: 0, width: 805, height: 10}` against an `800 × 600`
viewport, `clampToViewport` yields `x = 0` but `width = 805`, so
`x + width = 805 > 800`. -/
theorem clampToViewport_escapes_cex :
    0 ≤ (⟨-10, 0, 805, 10, 1, 1⟩ : BoundingBox).width ∧
    0 ≤ (⟨-10, 0, 805, 10, 1, 1⟩ : BoundingBox).height ∧
    ¬((clampToViewport ⟨-10, 0, 805, 10, 1, 1⟩
        ⟨800, 600, 1, [1, 0, 0, 1, 0, 0], none, none⟩).x +
      (clampToViewport ⟨-10, 0, 805, 10, 1, 1⟩
        ⟨800, 600, 1, [1, 0, 0, 1, 0, 0], none, none⟩).width ≤
      (⟨800, 600, 1, [1, 0, 0, 1, 0, 0], none, none⟩ : PDFViewport).width) := by
  refine ⟨by norm_num, by norm_num, ?_⟩
  unfold clampToViewport
  norm_num

/-- C1 amended: for boxes that additionally start at non-negative
coordinates (`x ≥ 0`, `y ≥ 0`), the clamped box lies inside the viewport:
`0 ≤ x'`, `0 ≤ y'`, `x' + width' ≤ v.width` and `y' + height' ≤ v.height`.
(The original claim fails for `x < 0` because the source computes the
clamped width from the unclamped `x`.) -/
theorem clampToViewport_inside_of_nonneg (box : BoundingBox) (vp : PDFViewport)
    (hx : 0 ≤ box.x) (hy : 0 ≤ box.y) (hw : 0 ≤ box.width) (hh : 0 ≤ box.height) :
    0 ≤ (clampToViewport box vp).x ∧ 0 ≤ (clampToViewport box vp).y ∧
    (clampToViewport box vp).x + (clampToViewport box vp).width ≤ vp.width ∧
    (clampToViewport box vp).y + (clampToViewport box vp).height ≤ vp.height := by
  unfold clampToViewport
  refine ⟨le_max_left _ _, le_max_left _ _, ?_, ?_⟩
  · have h1 : max 0 (min box.x (vp.width - box.width)) ≤ box.x :=
      max_le hx (min_le_left _ _)
    have h2 : min box.width (vp.width - box.x) ≤ vp.width - box.x :=
      min_le_right _ _
    dsimp
    linarith
  · have h1 : max 0 (min box.y (vp.height - box.height)) ≤ box.y :=
      max_le hy (min_le_left _ _)
    have h2 : min box.height (vp.height - box.y) ≤ vp.height - box.y :=
      min_le_right _ _
    dsimp
    linarith

/-- Witness for the amended C1 at a concrete oversized box with non-negative
origin. -/
theorem clampToViewport_inside_of_nonneg_witness :
    0 ≤ (clampToViewport ⟨700, 400, 200, 300, 1, 1⟩
          ⟨800, 600, 1, [1, 0, 0, 1, 0, 0], none, none⟩).x ∧
    0 ≤ (clampToViewport ⟨700, 400, 200, 300, 1, 1⟩
          ⟨800, 600, 1, [1, 0, 0, 1, 0, 0], none, none⟩).y ∧
    (clampToViewport ⟨700, 400, 200, 300, 1, 1⟩
        ⟨800, 600, 1, [1, 0, 0, 1, 0, 0], none, none⟩).x +
      (clampToViewport ⟨700, 400, 200, 300, 1, 1⟩
        ⟨800, 600, 1, [1, 0, 0, 1, 0, 0], none, none⟩).width ≤
      (⟨800, 600, 1, [1, 0, 0, 1, 0, 0], none, none⟩ : PDFViewport).width ∧
    (clampToViewport ⟨700, 400, 200, 300, 1, 1⟩
        ⟨800, 600, 1, [1, 0, 0, 1, 0, 0], none, none⟩).y +
      (clampToViewport ⟨700, 400, 200, 300, 1, 1⟩
        ⟨800, 600, 1, [1, 0, 0, 1, 0, 0], none, none⟩).height ≤
      (⟨800, 600, 1, [1, 0, 0, 1, 0, 0], none, none⟩ : PDFViewport).height :=
  clampToViewport_inside_of_nonneg ⟨700, 400, 200, 300, 1, 1⟩
    ⟨800, 600, 1, [1, 0, 0, 1, 0, 0], none, none⟩
    (by norm_num) (by norm_num) (by norm_num) (by norm_num)

/-- Helper: `completeSelection` never modifies `startPoint` or `endPoint` —
the success branch only flips `isSelecting` and stores the bounds, and every
other branch returns the state unchanged. -/
theorem completeSelection_fst_points (props : SelectionProps) (s : SelectionState) :
    (completeSelection props s).1.startPoint = s.startPoint ∧
    (completeSelection props s).1.endPoint = s.endPoint := by
  rcases s with ⟨sel, sp, ep, sb⟩
  rcases sel <;> rcases sp with _ | st <;> rcases ep with _ | en <;>
    simp only [completeSelection]
  all_goals try exact ⟨trivial, trivial⟩
  split
  · exact ⟨rfl, rfl⟩
  · split <;> exact ⟨rfl, rfl⟩

/-- C2 counterexample: after a full successful gesture
(`startSelection (10,20)`, `updateSelection (50,60)`, `completeSelection` at
scale 1), the machine has left the Selecting state but `startPoint` is still
set — the source's `completeSelection` never clears the points. -/
theorem completeSelection_keeps_points_cex :
    ((completeSelection ⟨⟨800, 600, 1, [1, 0, 0, 1, 0, 0], some 0, some 0⟩, 1, 5⟩
        (updateSelection ⟨⟨800, 600, 1, [1, 0, 0, 1, 0, 0], some 0, some 0⟩, 1, 5⟩
          ⟨50, 60⟩
          (startSelection ⟨10, 20⟩ initialSelectionState).1).1).1.isSelecting = false ∧
     (completeSelection ⟨⟨800, 600, 1, [1, 0, 0, 1, 0, 0], some 0, some 0⟩, 1, 5⟩
        (updateSelection ⟨⟨800, 600, 1, [1, 0, 0, 1, 0, 0], some 0, some 0⟩, 1, 5⟩
          ⟨50, 60⟩
          (startSelection ⟨10, 20⟩ initialSelectionState).1).1).1.startPoint =
       some ⟨10, 20⟩) := by
  norm_num [completeSelection, updateSelection, startSelection, initialSelectionState,
    getSelectionBounds, screenToPDF, normalizeSelection, Bind.bind, Except.bind,
    Pure.pure, Except.pure]

/-- C2 amended: `startPoint` and `endPoint` are cleared (and the machine
forced out of Selecting) by `cancelSelection` — which also fires
`onSelectionCancel` — and by `clearSelection`; a successful
`completeSelection`, however, leaves the Selecting state while RETAINING
`startPoint` and `endPoint`, so `isSelecting = false` alone does not imply
that the points are `null`. -/
theorem selection_points_cleared_amended (props : SelectionProps) (s : SelectionState) :
    (cancelSelection s).1.startPoint = none ∧
    (cancelSelection s).1.endPoint = none ∧
    (cancelSelection s).1.isSelecting = false ∧
    (cancelSelection s).2 = true ∧
    (clearSelection s).startPoint = none ∧
    (clearSelection s).endPoint = none ∧
    (clearSelection s).isSelecting = false ∧
    (completeSelection props s).1.startPoint = s.startPoint ∧
    (completeSelection props s).1.endPoint = s.endPoint :=
  ⟨rfl, rfl, rfl, rfl, rfl, rfl, rfl,
   (completeSelection_fst_points props s).1, (completeSelection_fst_points props s).2⟩

/-- C5: with the machine Selecting and both points set, a drag whose absolute
x-delta or y-delta is below `minSelectionSize` makes `completeSelection` a
strict no-op: the state (including `isSelecting = true`) is returned
unchanged and no `onSelectionComplete` outcome is produced. -/
theorem completeSelection_min_size_noop (props : SelectionProps)
    (s : SelectionState) (st en : Point)
    (hsel : s.isSelecting = true) (hst : s.startPoint = some st)
    (hen : s.endPoint = some en)
    (hsmall : |en.x - st.x| < props.minSelectionSize ∨
              |en.y - st.y| < props.minSelectionSize) :
    completeSelection props s = (s, .noop) := by
  rcases s with ⟨sel, sp, ep, sb⟩
  dsimp at hsel hst hen
  subst hsel hst hen
  simp only [completeSelection]
  rw [if_pos hsmall]

/-- Witness for C5: a 2-pixel-wide drag (below the default threshold 5)
leaves the machine in Selecting with its state intact. -/
theorem completeSelection_min_size_noop_witness :
    completeSelection ⟨⟨800, 600, 1, [1, 0, 0, 1, 0, 0], some 0, some 0⟩, 1, 5⟩
        ⟨true, some ⟨10, 20⟩, some ⟨12, 60⟩, none⟩ =
      (⟨true, some ⟨10, 20⟩, some ⟨12, 60⟩, none⟩, .noop) :=
  completeSelection_min_size_noop
    ⟨⟨800, 600, 1, [1, 0, 0, 1, 0, 0], some 0, some 0⟩, 1, 5⟩
    ⟨true, some ⟨10, 20⟩, some ⟨12, 60⟩, none⟩ ⟨10, 20⟩ ⟨12, 60⟩
    rfl rfl rfl (Or.inl (by norm_num))

/-- C6: the end-to-end gesture `startSelection (10,20)`,
`updateSelection (50,60)`, `completeSelection` at scale 1, offsets 0, page 1
produces the `onSelectionComplete` payload
`{x:10, y:20, width:40, height:40, pageNumber:1, scale:1, normalized:true}`
and leaves the machine out of the Selecting state (Idle). -/
theorem gesture_end_to_end :
    ((completeSelection ⟨⟨800, 600, 1, [1, 0, 0, 1, 0, 0], some 0, some 0⟩, 1, 5⟩
        (updateSelection ⟨⟨800, 600, 1, [1, 0, 0, 1, 0, 0], some 0, some 0⟩, 1, 5⟩
          ⟨50, 60⟩
          (startSelection ⟨10, 20⟩ initialSelectionState).1).1).2 =
       .completed ⟨10, 20, 40, 40, 1, 1, true⟩ ∧
     (completeSelection ⟨⟨800, 600, 1, [1, 0, 0, 1, 0, 0], some 0, some 0⟩, 1, 5⟩
        (updateSelection ⟨⟨800, 600, 1, [1, 0, 0, 1, 0, 0], some 0, some 0⟩, 1, 5⟩
          ⟨50, 60⟩
          (startSelection ⟨10, 20⟩ initialSelectionState).1).1).1.isSelecting =
       false) := by
  norm_num [completeSelection, updateSelection, startSelection, initialSelectionState,
    getSelectionBounds, screenToPDF, normalizeSelection, Bind.bind, Except.bind,
    Pure.pure, Except.pure]

/-- C7: whenever the clamped width and height are positive,
`extractSelectionFromCanvas` copies exactly the clamped region
`(max 0 (min (x·s) W), max 0 (min (y·s) H))` with size
`(min |w·s| (W - clampedX), min |h·s| (H - clampedY))` from the source
canvas to the origin of a fresh `|w·s| × |h·s|` canvas. -/
theorem extractSelectionFromCanvas_clamps (c : HTMLCanvas)
    (sel : NormalizedSelection) (scale : ℚ)
    (hw : 0 < min |sel.width * scale|
            (c.width - max 0 (min (sel.x * scale) c.width)))
    (hh : 0 < min |sel.height * scale|
            (c.height - max 0 (min (sel.y * scale) c.height))) :
    extractSelectionFromCanvas c sel scale =
      some { canvasWidth := |sel.width * scale|,
             canvasHeight := |sel.height * scale|,
             draw := { sx := max 0 (min (sel.x * scale) c.width),
                       sy := max 0 (min (sel.y * scale) c.height),
                       sw := min |sel.width * scale|
                               (c.width - max 0 (min (sel.x * scale) c.width)),
                       sh := min |sel.height * scale|
                               (c.height - max 0 (min (sel.y * scale) c.height)),
                       dx := 0, dy := 0,
                       dw := min |sel.width * scale|
                               (c.width - max 0 (min (sel.x * scale) c.width)),
                       dh := min |sel.height * scale|
                               (c.height - max 0 (min (sel.y * scale) c.height)) } } := by
  simp only [extractSelectionFromCanvas]
  rw [if_neg]
  push_neg
  exact ⟨hw, hh⟩

/-- Witness for C7 at the spec's own instance: a selection at `x = 700`,
`width = 200` (scale 1) against an 800-pixel-wide canvas copies a region of
width 100, not 200. -/
theorem extractSelectionFromCanvas_clamps_witness :
    extractSelectionFromCanvas ⟨800, 600⟩ ⟨700, 0, 200, 50, 1, 1, true⟩ 1 =
      some ⟨200, 50, ⟨700, 0, 100, 50, 0, 0, 100, 50⟩⟩ :=
  (extractSelectionFromCanvas_clamps ⟨800, 600⟩ ⟨700, 0, 200, 50, 1, 1, true⟩ 1
    (by norm_num) (by norm_num)).trans (by norm_num)

/-- C8: when the clamped width or clamped height is ≤ 0 (selection entirely
outside the source canvas), `extractSelectionFromCanvas` returns `none`
without producing any draw call; the path is a plain early return, so no
exception is involved. -/
theorem extractSelectionFromCanvas_outside_none (c : HTMLCanvas)
    (sel : NormalizedSelection) (scale : ℚ)
    (h : min |sel.width * scale|
           (c.width - max 0 (min (sel.x * scale) c.width)) ≤ 0 ∨
         min |sel.height * scale|
           (c.height - max 0 (min (sel.y * scale) c.height)) ≤ 0) :
    extractSelectionFromCanvas c sel scale = none := by
  simp only [extractSelectionFromCanvas]
  rw [if_pos h]

/-- Witness for C8 at the spec's own instance: a selection at `x = 900` on an
800-pixel-wide canvas yields `none`. -/
theorem extractSelectionFromCanvas_outside_none_witness :
    extractSelectionFromCanvas ⟨800, 600⟩ ⟨900, 0, 50, 50, 1, 1, true⟩ 1 = none :=
  extractSelectionFromCanvas_outside_none ⟨800, 600⟩ ⟨900, 0, 50, 50, 1, 1, true⟩ 1
    (Or.inl (by norm_num))

end PixelUrl
